import Mathlib

/-!
Shallow embedding of the `generic_abstract_factory` C++ library
(`generic_abstract_factory.h`) together with the customization policies of its
demonstration program (`generic_abstract_factory.cpp`).

The library is a compile-time construction engine: C++ types are modelled as
tokens of an inductive `Ty`, product descriptors as records carrying their
optional trait declarations, template trait resolution (`get_ctor_args`,
`get_ret_type`) as total functions, the recursive creator-chain generator
(`generate_creators`) as a structurally recursive function returning
`Except String` (a `.error` models a failed template instantiation, the string
being the `static_assert` message when one fires), and overload resolution of
`abstract_factory::create` as a type-level check that either succeeds or
produces the `static_assert` diagnostic of the fallback overload.

Runtime behaviour (what the selected creator's virtual `create` does) is
modelled with an explicit heap: `new Concrete(args...)` appends a fresh object
recording its dynamic class and the constructor arguments in order.  C++
implicit argument conversions are outside the model: a model `Value` stands
for the C++ value after conversion, so argument matching is exact `Ty`
equality, matching the spec's call surface ("must match the resolved argument
sequence exactly in count and type").
-/

namespace gaf

/-- Token model of the C++ types appearing in factory configurations:
primitive value types (`int`, `bool`, `float`), interface/class types named by
their spelling, and the three handle shapes used for results. -/
inductive Ty : Type where
  | prim : String → Ty
  | iface : String → Ty
  | unique_ptr : Ty → Ty
  | shared_ptr : Ty → Ty
  | raw_ptr : Ty → Ty
deriving DecidableEq, Repr

/-- Runtime values: primitive values, a handle of a given result shape holding
a heap address (models `Ret{ new Concrete(...) }` and `unique_ptr`/
`shared_ptr`/raw-pointer results), and the empty (value-initialized) handle
`prototype_t{}`. -/
inductive Value : Type where
  | intV : Int → Value
  | boolV : Bool → Value
  | floatV : Int → Value
  | handle : Ty → Nat → Value
  | nullH : Value
deriving DecidableEq, Repr

/-- The static type of a runtime value. -/
def Value.ty : Value → Ty
  | .intV _ => .prim "int"
  | .boolV _ => .prim "bool"
  | .floatV _ => .prim "float"
  | .handle t _ => t
  | .nullH => .prim "nullptr_t"

/-- Whether a value is an empty handle. -/
def Value.isNull : Value → Bool
  | .nullH => true
  | _ => false

/-- A heap object: its dynamic (concrete) class, the constructor arguments it
was built with (in order — the observable record of construction), and one
abstract mutable field standing for the object's observable state. -/
structure Obj : Type where
  cls : String
  ctor_args : List Value
  state : Nat
deriving DecidableEq, Repr

/-- The heap: objects indexed by address (their position in the list). -/
structure Heap : Type where
  objs : List Obj
deriving DecidableEq, Repr

/-- `new` : append a fresh object, returning its (fresh) address. -/
def Heap.alloc (h : Heap) (o : Obj) : Nat × Heap :=
  (h.objs.length, ⟨h.objs ++ [o]⟩)

/-- Mutate the observable state of the object at `addr` (no-op when the
address is dangling). -/
def Heap.setState (h : Heap) (addr s : Nat) : Heap :=
  match h.objs[addr]? with
  | some o => ⟨h.objs.set addr { o with state := s }⟩
  | none => h

/-- A product descriptor: its type name plus its optional trait declarations —
`ret_type` when declared (`some`), `ctor_args` when declared (`some`), and
whether it declares a `prototype_t` member (the demo's `has_prototype`
detection). -/
structure Descriptor : Type where
  name : String
  ret_decl : Option Ty
  args_decl : Option (List Ty)
  has_prototype : Bool
deriving DecidableEq, Repr

/-- `utils::get_ctor_args` (header, lines 68-81): `D::ctor_args` when the
member is declared, otherwise the empty list `tl<>`. -/
def get_ctor_args_t (D : Descriptor) : List Ty :=
  match D.args_decl with
  | some l => l
  | none => []

/-- `utils::get_ret_type` (header, lines 83-96): `D::ret_type` when the
member is declared, otherwise the supplied default. -/
def get_ret_type_t (D : Descriptor) (dflt : Ty) : Ty :=
  match D.ret_decl with
  | some t => t
  | none => dflt

/-- A factory context `tl<Abstract, Ret, tl<Args...>>`: the resolved identity
of one creation contract (`abstract_creator_interface::context`). -/
structure Context : Type where
  abs : Descriptor
  ret : Ty
  args : List Ty
deriving DecidableEq, Repr

/-- `default_abstract_creator` (header, lines 158-165): the dispatch contract
of descriptor `D`, with result type defaulting to `std::unique_ptr<D>` and
argument list defaulting to empty. -/
def default_abstract_creator (D : Descriptor) : Context :=
  ⟨D, get_ret_type_t D (.unique_ptr (.iface D.name)), get_ctor_args_t D⟩

/-- `abstract_factory::context_list`: one context per registered descriptor,
in registration order. -/
def context_list (descs : List Descriptor) : List Context :=
  descs.map default_abstract_creator

/-- The demo's `is_any_of` helper (cpp, lines 100-115): whether `target` is a
member of a type list. -/
def is_any_of (target : Descriptor) : List Descriptor → Bool
  | [] => false
  | t :: ts => if t = target then true else is_any_of target ts

/-- The composed creator chain built by `generate_creators`: each node is one
instantiation `Creator<Context, Concrete, Base>`; the innermost node's base is
the root object `Root` (for `concrete_factory`, the abstract factory). -/
inductive CreatorChain (Root : Type) : Type where
  | last : Context → String → Root → CreatorChain Root
  | cons : Context → String → CreatorChain Root → CreatorChain Root
deriving DecidableEq, Repr

/-- The ordered (context, concrete) pairs a chain was built from. -/
def CreatorChain.pairs {Root : Type} : CreatorChain Root → List (Context × String)
  | .last c i _ => [(c, i)]
  | .cons c i rest => (c, i) :: rest.pairs

/-- The contracts a chain implements, in order. -/
def CreatorChain.contexts {Root : Type} (ch : CreatorChain Root) : List Context :=
  ch.pairs.map Prod.fst

/-- The concrete implementations a chain binds, in order. -/
def CreatorChain.impls {Root : Type} (ch : CreatorChain Root) : List String :=
  ch.pairs.map Prod.snd

/-- Virtual dispatch through the chain: the node overriding descriptor `D`'s
contract is the (unique, for duplicate-free configurations) node whose context
is tagged with `D`. -/
def CreatorChain.lookup {Root : Type} : CreatorChain Root → Descriptor →
    Option (Context × String)
  | .last c i _, D => if c.abs = D then some (c, i) else none
  | .cons c i rest, D => if c.abs = D then some (c, i) else rest.lookup D

/-- `utils::generate_creators` (header, lines 98-137), the recursive zip of
the context list with the concrete list.  The two partial specializations are
the two list patterns; the `static_assert` on the tail lengths fires with the
message `"Abstract and concrete lists are of different length"`; list shapes
matched by neither specialization (an empty list on either side) are a failed
instantiation without that message. -/
def generate_creators {Root : Type} (root : Root) :
    List Context → List String → Except String (CreatorChain Root)
  | [c], [i] => .ok (.last c i root)
  | c :: cs, i :: is =>
      if cs.length = is.length then
        (generate_creators root cs is).map (CreatorChain.cons c i)
      else .error "Abstract and concrete lists are of different length"
  | _, _ => .error "no partial specialization of generate_creators matches"

/-- The creation policies occurring in the program: the library's
`default_concrete_creator` and the demo's two `CustomConcreteCreator`
specializations (value, prototype). -/
inductive Policy : Type where
  | default_creator : Policy
  | value_creator : Policy
  | prototype_creator : Policy
deriving DecidableEq, Repr

/-- The demo's `CustomConcreteCreator` policy selection (cpp, lines 123-172):
the value specialization applies to a single-argument context whose descriptor
is `IIntValue` or `IFloatValue` (here: named by `valueDescs`), the prototype
specialization to descriptors declaring `prototype_t`, and everything else
falls back to `default_concrete_creator`. -/
def CustomConcreteCreator (valueDescs : List Descriptor) (ctx : Context)
    (_impl : String) : Policy :=
  if is_any_of ctx.abs valueDescs ∧ ctx.args.length = 1 then .value_creator
  else if ctx.abs.has_prototype then .prototype_creator
  else .default_creator

/-- Mutable factory state: the heap, plus — for each prototype-policy creator
instance, keyed by its descriptor's name — the held exemplar handle
(`CustomConcreteCreator::prototype`, cpp line 160). -/
structure FState : Type where
  heap : Heap
  protos : String → Value

/-- A factory state whose prototype members are all value-initialized to the
empty handle (`typename Abstract::prototype_t prototype{}`). -/
def init_state (h : Heap) : FState :=
  ⟨h, fun _ => Value.nullH⟩

/-- `SetPrototype` (cpp, lines 155-158): replace the exemplar handle held by
descriptor `D`'s prototype creator; no other creator's state is touched. -/
def SetPrototype (st : FState) (D : Descriptor) (p : Value) : FState :=
  { st with protos := fun n => if n = D.name then p else st.protos n }

/-- `PrototypeProduct<N>::Clone` (cpp, lines 62-65), the one `Clone`
implementation in the program: `prototype_t{ new PrototypeProduct() }` — a
freshly allocated default-constructed instance of the receiver's dynamic
class.  `none` models a call through a dangling address. -/
def Clone (h : Heap) (addr : Nat) : Option (Nat × Heap) :=
  match h.objs[addr]? with
  | some o => some (h.alloc ⟨o.cls, [], 0⟩)
  | none => none

/-- The diagnostic marking the undefined behaviour of calling `Clone` through
an empty `prototype_t` handle (`prototype->Clone()` with `prototype == {}`).
The C++ program has no such check: this marker stands for the undefined
dereference itself, not for a defined error result. -/
def ub_empty_prototype : String :=
  "undefined behavior: Clone called through an empty prototype handle"

/-- The body of the selected creator's virtual `create`:
* `default_creator` (header, lines 189-192): `Ret{ new Concrete(args...) }` —
  construct one fresh `Concrete` from the arguments in order, wrap its
  address into the result type;
* `value_creator` (cpp, lines 139-142): return the single argument directly,
  constructing nothing;
* `prototype_creator` (cpp, lines 165-168): ignore the arguments and return
  `prototype->Clone()`, dereferencing the held exemplar handle with no
  emptiness check. -/
def creator_create (pol : Policy) (ctx : Context) (impl : String) (st : FState)
    (args : List Value) : Except String (Value × Heap) :=
  match pol with
  | .default_creator =>
      let r := st.heap.alloc ⟨impl, args, 0⟩
      .ok (Value.handle ctx.ret r.1, r.2)
  | .value_creator =>
      match args with
      | [a] => .ok (a, st.heap)
      | _ => .error "value creator requires exactly one argument"
  | .prototype_creator =>
      match st.protos ctx.abs.name with
      | .handle _ e =>
          match Clone st.heap e with
          | some r => .ok (Value.handle ctx.ret r.1, r.2)
          | none => .error "dangling exemplar address"
      | _ => .error ub_empty_prototype

/-- The two `static_assert`s guarding `default_concrete_creator` (header,
lines 181-184), parameterized by the C++ constructibility facts
`std::is_constructible<Concrete, Args...>` and
`std::is_constructible<Ret, Concrete*>`. -/
def default_concrete_creator_check
    (constructible_from : String → List Ty → Bool)
    (ret_constructible_from_ptr : Ty → String → Bool)
    (ctx : Context) (impl : String) : Except String Unit :=
  if constructible_from impl ctx.args then
    if ret_constructible_from_ptr ctx.ret impl then .ok ()
    else .error "ret_type is not constructible from Concrete*"
  else .error "Product is not constructible from a given set of arguments"

/-- A factory configuration: the registered descriptor sequence, the concrete
implementation sequence, and the creator-policy template used to instantiate
each chain node. -/
structure Config : Type where
  descriptors : List Descriptor
  impls : List String
  policy : Context → String → Policy

/-- Overload resolution of `abstract_factory::create<Abstract>(args...)`
(header, lines 204-257), a build-time check on types only: when `D` is not a
registered descriptor (`std::is_base_of` fails) the fallback overload's first
`static_assert` fires with the "wrong product type" diagnostic; when it is
registered but the argument types do not match its contract, the second fires
with the "wrong arguments" diagnostic; otherwise the real overload is
selected. -/
def create_resolve (cfg : Config) (D : Descriptor) (argTys : List Ty) :
    Except String Unit :=
  if D ∈ cfg.descriptors then
    if argTys = (default_abstract_creator D).args then .ok ()
    else .error "abstract_factory::create(): wrong arguments"
  else .error "abstract_factory::create(): wrong product type"

/-- The creator bound to descriptor `D` in configuration `cfg`: build the
chain `concrete_factory` builds (root: the abstract factory, identified with
its descriptor list) and dispatch virtually. -/
def bound_creator (cfg : Config) (D : Descriptor) : Option (Context × String) :=
  match generate_creators cfg.descriptors (context_list cfg.descriptors) cfg.impls with
  | .ok chain => chain.lookup D
  | .error _ => none

/-- `abstract_factory::create<D>(args...)` end to end: overload resolution,
then chain construction (`concrete_factory`, header lines 260-273), then
dispatch to the bound creator, forwarding the arguments in order and returning
that creator's result.  Every `.error` is a build-time failure: no creator
body runs and no state changes. -/
def afactory_create (cfg : Config) (st : FState) (D : Descriptor)
    (args : List Value) : Except String (Value × Heap) :=
  match create_resolve cfg D (args.map Value.ty) with
  | .error e => .error e
  | .ok _ =>
      match generate_creators cfg.descriptors (context_list cfg.descriptors) cfg.impls with
      | .error e => .error e
      | .ok chain =>
          match chain.lookup D with
          | some ci => creator_create (cfg.policy ci.1 ci.2) ci.1 ci.2 st args
          | none => .error "abstract_factory::create(): wrong product type"

/-! ### The demonstration program's configuration (cpp, lines 12-190) -/

/-- `IUniqueProduct`: a descriptor declaring no traits. -/
def IUniqueProduct : Descriptor := ⟨"IUniqueProduct", none, none, false⟩

/-- `ISharedProduct`: declares `ret_type = std::shared_ptr<ISharedProduct>`. -/
def ISharedProduct : Descriptor :=
  ⟨"ISharedProduct", some (.shared_ptr (.iface "ISharedProduct")), none, false⟩

/-- `IRawProduct`: declares `ret_type = IRawProduct*` and
`ctor_args = tl<bool, int>`. -/
def IRawProduct : Descriptor :=
  ⟨"IRawProduct", some (.raw_ptr (.iface "IRawProduct")),
    some [.prim "bool", .prim "int"], false⟩

/-- `IIntValue = IValueProduct<int>`: `ret_type = int`, `ctor_args = tl<int>`. -/
def IIntValue : Descriptor :=
  ⟨"IValueProduct<int>", some (.prim "int"), some [.prim "int"], false⟩

/-- `IFloatValue = IValueProduct<float>`. -/
def IFloatValue : Descriptor :=
  ⟨"IValueProduct<float>", some (.prim "float"), some [.prim "float"], false⟩

/-- `IPrototypeProduct<0>` (`PrototypeProductA::abstract_t`): no trait
declarations, but declares a `prototype_t` member. -/
def IPrototypeProductA : Descriptor := ⟨"IPrototypeProduct<0>", none, none, true⟩

/-- `IPrototypeProduct<1>` (`PrototypeProductB::abstract_t`). -/
def IPrototypeProductB : Descriptor := ⟨"IPrototypeProduct<1>", none, none, true⟩

/-- `IExistingFactoryProduct = utils::make_factory_interface<`
`IExistingSharedProduct, std::shared_ptr<IExistingSharedProduct>>`: the
adapter declares `ret_type` as supplied and `ctor_args = tl<>`. -/
def IExistingFactoryProduct : Descriptor :=
  ⟨"IExistingFactoryProduct",
    some (.shared_ptr (.iface "IExistingSharedProduct")), some [], false⟩

/-- The demo's `AFactory`/`CFactory` configuration (cpp, lines 174-190). -/
def demo_config : Config :=
  ⟨[IUniqueProduct, ISharedProduct, IRawProduct, IIntValue, IFloatValue,
    IPrototypeProductA, IPrototypeProductB, IExistingFactoryProduct],
   ["UniqueProduct", "SharedProduct", "RawProduct", "IValueProduct<int>",
    "IValueProduct<float>", "IPrototypeProduct<0>", "IPrototypeProduct<1>",
    "ExistingSharedProduct"],
   CustomConcreteCreator [IIntValue, IFloatValue]⟩

/-- The well-typedness side condition a custom creation policy must satisfy
for its result to have the contract's result type: the demo's value
specialization returns its argument, so its contexts must have the argument
type equal to the result type (true of `IValueProduct<T>`: `ret_type = T`,
`ctor_args = tl<T>`); the default and prototype policies wrap a fresh address
into the result type unconditionally. -/
def policy_result_typed (pol : Policy) (ctx : Context) : Prop :=
  pol = .value_creator → ctx.args = [ctx.ret]

/-! ### Helper lemmas -/

theorem generate_creators_ok {Root : Type} (root : Root) (ctxs : List Context) :
    ∀ impls : List String, ctxs ≠ [] → ctxs.length = impls.length →
    ∃ ch, generate_creators root ctxs impls = .ok ch ∧
      ch.pairs = ctxs.zip impls := by
  induction ctxs with
  | nil => intro impls h _; exact absurd rfl h
  | cons c cs ih =>
    intro impls _ hlen
    cases impls with
    | nil => simp at hlen
    | cons i is =>
      cases cs with
      | nil =>
        cases is with
        | nil => exact ⟨.last c i root, rfl, rfl⟩
        | cons i2 is2 => simp at hlen
      | cons c2 cs2 =>
        cases is with
        | nil => simp at hlen
        | cons i2 is2 =>
          have hlen2 : (c2 :: cs2).length = (i2 :: is2).length := by
            simpa using hlen
          obtain ⟨ch, hch, hpairs⟩ := ih (i2 :: is2) (by simp) hlen2
          refine ⟨.cons c i ch, ?_, ?_⟩
          · show (if (c2 :: cs2).length = (i2 :: is2).length then
                (generate_creators root (c2 :: cs2) (i2 :: is2)).map
                  (CreatorChain.cons c i)
              else Except.error
                "Abstract and concrete lists are of different length") = _
            rw [if_pos hlen2, hch]
            rfl
          · simp [CreatorChain.pairs, hpairs]

theorem lookup_in_zip {Root : Type} (descs : List Descriptor) :
    ∀ (impls : List String) (ch : CreatorChain Root) (D : Descriptor),
    ch.pairs = (context_list descs).zip impls → D ∈ descs →
    descs.length = impls.length →
    ∃ (i : String) (k : Nat),
      ch.lookup D = some (default_abstract_creator D, i) ∧
      descs[k]? = some D ∧ impls[k]? = some i := by
  induction descs with
  | nil => intro impls ch D _ hmem _; simp at hmem
  | cons d ds ih =>
    intro impls ch D hpairs hmem hlen
    cases impls with
    | nil => simp at hlen
    | cons i is =>
      have hcl : context_list (d :: ds) =
          default_abstract_creator d :: context_list ds := rfl
      rw [hcl, List.zip_cons_cons] at hpairs
      cases ch with
      | last c ci r =>
        simp only [CreatorChain.pairs, List.cons.injEq, Prod.mk.injEq] at hpairs
        obtain ⟨⟨hc, hci⟩, hnil⟩ := hpairs
        rcases List.mem_cons.mp hmem with hD | hD
        · refine ⟨i, 0, ?_, by simp [hD], by simp⟩
          have habs : c.abs = D := by rw [hc, hD]; rfl
          show (if c.abs = D then some (c, ci) else none) =
            some (default_abstract_creator D, i)
          rw [if_pos habs, hc, hci, hD]
        · exfalso
          rcases List.zip_eq_nil_iff.mp hnil.symm with h1 | h1
          · have : ds = [] := by
              simpa [context_list] using h1
            simp [this] at hD
          · have : ds = [] := by
              have h2 := hlen
              simp [h1] at h2
              exact h2
            simp [this] at hD
      | cons c ci rest =>
        simp only [CreatorChain.pairs, List.cons.injEq, Prod.mk.injEq] at hpairs
        obtain ⟨⟨hc, hci⟩, hrest⟩ := hpairs
        by_cases hD : d = D
        · refine ⟨i, 0, ?_, by simp [hD], by simp⟩
          have habs : c.abs = D := by rw [hc, ← hD]; rfl
          show (if c.abs = D then some (c, ci) else rest.lookup D) =
            some (default_abstract_creator D, i)
          rw [if_pos habs, hc, hci, ← hD]
        · have hmem2 : D ∈ ds := by
            rcases List.mem_cons.mp hmem with h | h
            · exact absurd h.symm hD
            · exact h
          have hlen2 : ds.length = is.length := by simpa using hlen
          obtain ⟨i2, k2, hlook, hdk, hik⟩ := ih is rest D hrest hmem2 hlen2
          refine ⟨i2, k2 + 1, ?_, by simpa using hdk, by simpa using hik⟩
          have habs : ¬(c.abs = D) := by
            rw [hc]
            simpa [default_abstract_creator] using hD
          simp [CreatorChain.lookup, habs, hlook]

/-- The prototype specialization's `create` clones the held exemplar: it
allocates a fresh default-constructed object of the exemplar's dynamic class
(`PrototypeProduct<N>::Clone`) and returns a handle to it of the contract's
result shape. -/
theorem prototype_create_clones (ctx : Context) (impl : String) (st : FState)
    (t : Ty) (a : Nat) (o : Obj) (args : List Value)
    (hp : st.protos ctx.abs.name = Value.handle t a)
    (ho : st.heap.objs[a]? = some o) :
    creator_create .prototype_creator ctx impl st args =
      .ok (Value.handle ctx.ret st.heap.objs.length,
        ⟨st.heap.objs ++ [⟨o.cls, [], 0⟩]⟩) := by
  simp only [creator_create, hp, Clone, ho]
  rfl

/-! ### The claims -/

/-- Claim C1: for every registered descriptor `D` and every argument list
whose value types match `D`'s resolved argument sequence in count and type,
`create<D>(args...)` selects the creator bound to `D`'s contract — the chain
node paired positionally with `D` — forwards the arguments to that creator's
virtual `create` in order and returns exactly that creator's result; whenever
a result is produced its type is `D`'s resolved result type (for the value
policy, under its `policy_result_typed` side condition, which the demo's
value descriptors satisfy). -/
theorem create_dispatch_correct (cfg : Config) (st : FState) (D : Descriptor)
    (args : List Value) (c : Context) (i : String)
    (_hnodup : cfg.descriptors.Nodup)
    (hlen : cfg.descriptors.length = cfg.impls.length)
    (hmem : D ∈ cfg.descriptors)
    (hargs : args.map Value.ty = (default_abstract_creator D).args)
    (hbound : bound_creator cfg D = some (c, i))
    (htyped : policy_result_typed (cfg.policy c i) c) :
    c = default_abstract_creator D ∧
    (∃ k : Nat, cfg.descriptors[k]? = some D ∧ cfg.impls[k]? = some i) ∧
    afactory_create cfg st D args =
      creator_create (cfg.policy c i) c i st args ∧
    (∀ v h2, creator_create (cfg.policy c i) c i st args = .ok (v, h2) →
      v.ty = (default_abstract_creator D).ret) := by
  have hnec : context_list cfg.descriptors ≠ [] := by
    intro h
    have hd : cfg.descriptors = [] := by simpa [context_list] using h
    rw [hd] at hmem
    simp at hmem
  have hlenc : (context_list cfg.descriptors).length = cfg.impls.length := by
    simpa [context_list] using hlen
  obtain ⟨ch, hch, hpairs⟩ := generate_creators_ok cfg.descriptors
    (context_list cfg.descriptors) cfg.impls hnec hlenc
  obtain ⟨i0, k, hlook, hdk, hik⟩ := lookup_in_zip cfg.descriptors cfg.impls
    ch D hpairs hmem hlen
  have hbc : bound_creator cfg D = ch.lookup D := by
    simp [bound_creator, hch]
  rw [hbc, hlook] at hbound
  have hpair := Option.some.inj hbound
  injection hpair with hc hi
  subst hc
  subst hi
  have hres : create_resolve cfg D (args.map Value.ty) = .ok () := by
    simp [create_resolve, hmem, hargs]
  have hmain : afactory_create cfg st D args =
      creator_create (cfg.policy (default_abstract_creator D) i0)
        (default_abstract_creator D) i0 st args := by
    simp [afactory_create, hres, hch, hlook]
  refine ⟨rfl, ⟨k, hdk, hik⟩, hmain, ?_⟩
  intro v h2 heq
  cases hpol : cfg.policy (default_abstract_creator D) i0 with
  | default_creator =>
    rw [hpol] at heq
    have h3 := Except.ok.inj heq
    injection h3 with hv hh2
    rw [← hv]
    rfl
  | value_creator =>
    rw [hpol] at heq
    have hcv := htyped hpol
    have hargs2 : args.map Value.ty = [(default_abstract_creator D).ret] := by
      rw [hargs, hcv]
    cases args with
    | nil => simp at hargs2
    | cons a as =>
      cases as with
      | nil =>
        have h3 := Except.ok.inj heq
        injection h3 with hv hh2
        rw [← hv]
        simpa using hargs2
      | cons b bs => simp at hargs2
  | prototype_creator =>
    rw [hpol] at heq
    cases hvp : st.protos (default_abstract_creator D).abs.name with
    | intV n =>
      simp only [creator_create, hvp] at heq
      exact Except.noConfusion heq
    | boolV b =>
      simp only [creator_create, hvp] at heq
      exact Except.noConfusion heq
    | floatV f =>
      simp only [creator_create, hvp] at heq
      exact Except.noConfusion heq
    | nullH =>
      simp only [creator_create, hvp] at heq
      exact Except.noConfusion heq
    | handle t0 e =>
      simp only [creator_create, hvp] at heq
      cases hcl : Clone st.heap e with
      | none =>
        rw [hcl] at heq
        exact Except.noConfusion heq
      | some r =>
        rw [hcl] at heq
        have h3 := Except.ok.inj heq
        injection h3 with hv hh2
        rw [← hv]
        rfl

/-- Witness for C1: the demo factory's `IRawProduct` with arguments
`(true, 1)`. -/
theorem create_dispatch_correct_witness :
    afactory_create demo_config (init_state ⟨[]⟩) IRawProduct
        [Value.boolV true, Value.intV 1] =
      creator_create
        (demo_config.policy (default_abstract_creator IRawProduct) "RawProduct")
        (default_abstract_creator IRawProduct) "RawProduct" (init_state ⟨[]⟩)
        [Value.boolV true, Value.intV 1] :=
  (create_dispatch_correct demo_config (init_state ⟨[]⟩) IRawProduct
    [Value.boolV true, Value.intV 1] (default_abstract_creator IRawProduct)
    "RawProduct" (by decide) (by decide) (by decide) (by decide) rfl
    (fun h => absurd h (by decide))).2.2.1

/-- Claim C2: trait resolution yields `D::ret_type` when declared, otherwise
the supplied default — which `default_abstract_creator` instantiates as
`std::unique_ptr<D>`, an owning handle to the descriptor itself; it yields
`D::ctor_args` when declared, otherwise the empty sequence.  The two traits
are resolved independently (each depends only on its own declaration), and
both resolvers are total functions, so resolution never fails. -/
theorem trait_resolution_correct (D : Descriptor) (dflt : Ty) :
    (∀ t, D.ret_decl = some t → get_ret_type_t D dflt = t) ∧
    (D.ret_decl = none → get_ret_type_t D dflt = dflt) ∧
    (D.ret_decl = none →
      (default_abstract_creator D).ret = Ty.unique_ptr (Ty.iface D.name)) ∧
    (∀ l, D.args_decl = some l → get_ctor_args_t D = l) ∧
    (D.args_decl = none → get_ctor_args_t D = []) ∧
    (∀ E : Descriptor, E.ret_decl = D.ret_decl →
      get_ret_type_t E dflt = get_ret_type_t D dflt) ∧
    (∀ E : Descriptor, E.args_decl = D.args_decl →
      get_ctor_args_t E = get_ctor_args_t D) := by
  refine ⟨fun t h => ?_, fun h => ?_, fun h => ?_, fun l h => ?_, fun h => ?_,
    fun E h => ?_, fun E h => ?_⟩
  · simp [get_ret_type_t, h]
  · simp [get_ret_type_t, h]
  · simp [default_abstract_creator, get_ret_type_t, h]
  · simp [get_ctor_args_t, h]
  · simp [get_ctor_args_t, h]
  · simp [get_ret_type_t, h]
  · simp [get_ctor_args_t, h]

/-- Witness for C2, at the demo's `IRawProduct` (both traits declared) and
`IUniqueProduct` (no traits declared). -/
theorem trait_resolution_correct_witness :
    get_ret_type_t IRawProduct (Ty.prim "unused") =
      Ty.raw_ptr (Ty.iface "IRawProduct") ∧
    get_ctor_args_t IUniqueProduct = [] ∧
    (default_abstract_creator IUniqueProduct).ret =
      Ty.unique_ptr (Ty.iface "IUniqueProduct") :=
  ⟨(trait_resolution_correct IRawProduct (Ty.prim "unused")).1 _ rfl,
   (trait_resolution_correct IUniqueProduct (Ty.prim "unused")).2.2.2.2.1 rfl,
   (trait_resolution_correct IUniqueProduct (Ty.prim "unused")).2.2.1 rfl⟩

/-- Claim C3: `create<D>` with an unregistered descriptor is rejected by
overload resolution — a check on types only, hence at build time — with the
"wrong product type" `static_assert` diagnostic; with a registered descriptor
but an argument list whose types do not match `D`'s resolved argument
sequence, with the "wrong arguments" diagnostic.  In both cases the
end-to-end call produces the same build diagnostic and no result: no creator
runs, so there is neither a runtime failure nor a silent no-op.  (C++
implicit argument conversions are outside the model: a model value carries
the type the C++ argument has after conversion.) -/
theorem create_build_diagnostics (cfg : Config) (st : FState) (D : Descriptor)
    (args : List Value) :
    (D ∉ cfg.descriptors →
      create_resolve cfg D (args.map Value.ty) =
        .error "abstract_factory::create(): wrong product type" ∧
      afactory_create cfg st D args =
        .error "abstract_factory::create(): wrong product type") ∧
    (D ∈ cfg.descriptors →
      args.map Value.ty ≠ (default_abstract_creator D).args →
      create_resolve cfg D (args.map Value.ty) =
        .error "abstract_factory::create(): wrong arguments" ∧
      afactory_create cfg st D args =
        .error "abstract_factory::create(): wrong arguments") ∧
    "abstract_factory::create(): wrong product type" =
      "abstract_factory::create(): " ++ "wrong product type" ∧
    "abstract_factory::create(): wrong arguments" =
      "abstract_factory::create(): " ++ "wrong arguments" := by
  refine ⟨fun hmem => ?_, fun hmem hne => ?_, rfl, rfl⟩
  · have h1 : create_resolve cfg D (args.map Value.ty) =
        .error "abstract_factory::create(): wrong product type" := by
      simp [create_resolve, hmem]
    exact ⟨h1, by simp [afactory_create, h1]⟩
  · have h1 : create_resolve cfg D (args.map Value.ty) =
        .error "abstract_factory::create(): wrong arguments" := by
      simp [create_resolve, hmem, hne]
    exact ⟨h1, by simp [afactory_create, h1]⟩

/-- Witness for C3: an unregistered descriptor, and `IRawProduct` called with
a single `int` instead of `(bool, int)`. -/
theorem create_build_diagnostics_witness :
    afactory_create demo_config (init_state ⟨[]⟩)
      ⟨"IUnknownProduct", none, none, false⟩ [] =
      .error "abstract_factory::create(): wrong product type" ∧
    afactory_create demo_config (init_state ⟨[]⟩) IRawProduct [Value.intV 3] =
      .error "abstract_factory::create(): wrong arguments" :=
  ⟨((create_build_diagnostics demo_config (init_state ⟨[]⟩)
      ⟨"IUnknownProduct", none, none, false⟩ []).1 (by decide)).2,
   ((create_build_diagnostics demo_config (init_state ⟨[]⟩) IRawProduct
      [Value.intV 3]).2.1 (by decide) (by decide)).2⟩

/-- Claim C4: under the default policy, a creation call constructs exactly
one fresh instance of the associated concrete implementation (the heap grows
by exactly that one object, allocated at a previously unused address),
records the arguments in the constructor's order, wraps the fresh address
into the contract's resolved result type and returns it; the returned handle
is never the empty handle. -/
theorem default_creator_fresh_construction (ctx : Context) (impl : String)
    (st : FState) (args : List Value)
    (_hargs : args.map Value.ty = ctx.args) :
    creator_create .default_creator ctx impl st args =
      .ok (Value.handle ctx.ret st.heap.objs.length,
           ⟨st.heap.objs ++ [⟨impl, args, 0⟩]⟩) ∧
    st.heap.objs[st.heap.objs.length]? = none ∧
    (st.heap.objs ++ [⟨impl, args, 0⟩])[st.heap.objs.length]? =
      some ⟨impl, args, 0⟩ ∧
    (Value.handle ctx.ret st.heap.objs.length).isNull = false ∧
    (Value.handle ctx.ret st.heap.objs.length).ty = ctx.ret :=
  ⟨rfl, by simp, List.getElem?_concat_length _ _, rfl, rfl⟩

/-- Witness for C4: the demo's `IRawProduct` with arguments `(true, 1)`. -/
theorem default_creator_fresh_construction_witness :
    creator_create .default_creator (default_abstract_creator IRawProduct)
      "RawProduct" (init_state ⟨[]⟩) [Value.boolV true, Value.intV 1] =
      .ok (Value.handle (Ty.raw_ptr (Ty.iface "IRawProduct")) 0,
           ⟨[⟨"RawProduct", [Value.boolV true, Value.intV 1], 0⟩]⟩) :=
  (default_creator_fresh_construction (default_abstract_creator IRawProduct)
    "RawProduct" (init_state ⟨[]⟩) [Value.boolV true, Value.intV 1]
    (by decide)).1

/-- Claim C9: for the demo's value descriptor `IIntValue` (`ret_type = int`,
`ctor_args = tl<int>`), `create<IIntValue>(12)` returns the plain value `12`
and hands the heap back unchanged: the value specialization of
`CustomConcreteCreator` returns its argument directly and no implementation
object is constructed by the call. -/
theorem value_policy_returns_argument (st : FState) :
    afactory_create demo_config st IIntValue [Value.intV 12] =
      .ok (Value.intV 12, st.heap) := rfl

/-- Claim C10: a prototype creator's exemplar handle is value-initialized to
the empty handle, and `create` dereferences it with no emptiness check: a
`create<D>()` on a factory on which no `SetPrototype` was ever called reaches
the dereference of the empty handle (surfaced in the model by the
undefined-behaviour marker `ub_empty_prototype`; the C++ program defines no
error result there).  Under the precondition that an exemplar handle has been
stored for the descriptor, the dereference is of a non-empty handle and the
undefined dereference cannot occur. -/
theorem prototype_unset_exemplar_deref (h : Heap) (st : FState) (ctx : Context)
    (impl : String) (t : Ty) (a : Nat)
    (hset : st.protos ctx.abs.name = Value.handle t a) :
    (∀ n, (init_state h).protos n = Value.nullH) ∧
    afactory_create demo_config (init_state h) IPrototypeProductA [] =
      .error ub_empty_prototype ∧
    afactory_create demo_config (init_state h) IPrototypeProductB [] =
      .error ub_empty_prototype ∧
    creator_create .prototype_creator ctx impl st [] ≠
      .error ub_empty_prototype := by
  refine ⟨fun n => rfl, rfl, rfl, fun hcontra => ?_⟩
  simp only [creator_create, hset] at hcontra
  cases hcl : Clone st.heap a with
  | some r => rw [hcl] at hcontra; exact absurd hcontra (by simp)
  | none =>
      rw [hcl] at hcontra
      have := Except.error.inj hcontra
      simp [ub_empty_prototype] at this

/-- Witness for C10: a one-object heap whose object is installed as the
exemplar of `IPrototypeProductA`. -/
theorem prototype_unset_exemplar_deref_witness :
    creator_create .prototype_creator
      (default_abstract_creator IPrototypeProductA) "IPrototypeProduct<0>"
      (SetPrototype (init_state ⟨[⟨"PrototypeProduct<0>", [], 0⟩]⟩)
        IPrototypeProductA
        (Value.handle (Ty.unique_ptr (Ty.iface "IPrototypeProduct<0>")) 0))
      [] ≠ .error ub_empty_prototype :=
  (prototype_unset_exemplar_deref ⟨[]⟩
    (SetPrototype (init_state ⟨[⟨"PrototypeProduct<0>", [], 0⟩]⟩)
      IPrototypeProductA
      (Value.handle (Ty.unique_ptr (Ty.iface "IPrototypeProduct<0>")) 0))
    (default_abstract_creator IPrototypeProductA) "IPrototypeProduct<0>"
    (Ty.unique_ptr (Ty.iface "IPrototypeProduct<0>")) 0 (by decide)).2.2.2

/-- Claim C5: `generate_creators` composes the creators by recursive zip:
the base case (one (contract, implementation) pair left) binds that creator
directly to the root object; the recursive case peels the first pair and
instantiates a creator for it whose base is the composition of the remaining
pairs; for sequences of equal length `n` the result is one chain whose pair
list is exactly the positional zip of the two sequences — a single object
implementing all `n` per-descriptor contracts. -/
theorem generate_creators_recursive_zip {Root : Type} (root : Root)
    (ctxs cs : List Context) (impls is : List String) (c : Context) (i : String)
    (hlen : ctxs.length = impls.length) (hne : ctxs ≠ [])
    (hcs : cs ≠ []) (hlen2 : cs.length = is.length) :
    (∃ ch, generate_creators root ctxs impls = .ok ch ∧
      ch.pairs = ctxs.zip impls ∧ ch.contexts = ctxs ∧ ch.impls = impls) ∧
    generate_creators root [c] [i] = .ok (.last c i root) ∧
    generate_creators root (c :: cs) (i :: is) =
      (generate_creators root cs is).map (CreatorChain.cons c i) := by
  refine ⟨?_, rfl, ?_⟩
  · obtain ⟨ch, hch, hpairs⟩ := generate_creators_ok root ctxs impls hne hlen
    refine ⟨ch, hch, hpairs, ?_, ?_⟩
    · rw [CreatorChain.contexts, hpairs]
      exact List.map_fst_zip ctxs impls (le_of_eq hlen)
    · rw [CreatorChain.impls, hpairs]
      exact List.map_snd_zip ctxs impls (ge_of_eq hlen)
  · cases cs with
    | nil => exact absurd rfl hcs
    | cons c2 cs2 =>
      cases is with
      | nil => simp at hlen2
      | cons i2 is2 =>
        show (if (c2 :: cs2).length = (i2 :: is2).length then
            (generate_creators root (c2 :: cs2) (i2 :: is2)).map
              (CreatorChain.cons c i)
          else Except.error
            "Abstract and concrete lists are of different length") = _
        rw [if_pos hlen2]

/-- Witness for C5, on two of the demo's contracts. -/
theorem generate_creators_recursive_zip_witness :
    generate_creators () [default_abstract_creator ISharedProduct]
      ["SharedProduct"] =
      .ok (.last (default_abstract_creator ISharedProduct) "SharedProduct" ()) ∧
    generate_creators ()
      (default_abstract_creator ISharedProduct ::
        [default_abstract_creator IUniqueProduct])
      ("SharedProduct" :: ["UniqueProduct"]) =
      (generate_creators () [default_abstract_creator IUniqueProduct]
        ["UniqueProduct"]).map
        (CreatorChain.cons (default_abstract_creator ISharedProduct)
          "SharedProduct") :=
  ⟨(generate_creators_recursive_zip () (context_list demo_config.descriptors)
      [default_abstract_creator IUniqueProduct] demo_config.impls
      ["UniqueProduct"] (default_abstract_creator ISharedProduct)
      "SharedProduct" (by decide) (by decide) (by decide) (by decide)).2.1,
   (generate_creators_recursive_zip () (context_list demo_config.descriptors)
      [default_abstract_creator IUniqueProduct] demo_config.impls
      ["UniqueProduct"] (default_abstract_creator ISharedProduct)
      "SharedProduct" (by decide) (by decide) (by decide) (by decide)).2.2⟩

/-- Counterexample to claim C6: a two-context, one-implementation
configuration does fail at composition time, but the `static_assert` message
in the code is "Abstract and concrete lists are of different length", not the
"descriptor and implementation lists are of different length" the claim fixes
as the public contract. -/
theorem length_mismatch_message_counterexample :
    generate_creators ()
      [default_abstract_creator IUniqueProduct,
        default_abstract_creator ISharedProduct] ["UniqueProduct"] =
      .error "Abstract and concrete lists are of different length" ∧
    "Abstract and concrete lists are of different length" ≠
      "descriptor and implementation lists are of different length" :=
  ⟨rfl, by decide⟩

/-- Claim C6 (amended): when the context and implementation sequences differ
in length, chain composition fails at build time — `generate_creators` never
yields a chain, so no `create` can ever execute — and whenever both sequences
are nonempty the failure carries the exact `static_assert` message
"Abstract and concrete lists are of different length" (with an empty sequence
on either side, the failure is an unmatched partial specialization instead). -/
theorem length_mismatch_exact_message {Root : Type} (root : Root)
    (ctxs : List Context) (impls : List String)
    (hlen : ctxs.length ≠ impls.length) :
    (∀ ch, generate_creators root ctxs impls ≠ .ok ch) ∧
    (ctxs ≠ [] → impls ≠ [] →
      generate_creators root ctxs impls =
        .error "Abstract and concrete lists are of different length") := by
  cases ctxs with
  | nil =>
    cases impls with
    | nil => exact absurd rfl hlen
    | cons i is => exact ⟨fun ch h => (nomatch h), fun h _ => absurd rfl h⟩
  | cons c cs =>
    cases impls with
    | nil =>
      refine ⟨?_, fun _ h => absurd rfl h⟩
      cases cs with
      | nil => exact fun ch h => (nomatch h)
      | cons c2 cs2 => exact fun ch h => (nomatch h)
    | cons i is =>
      have hlen2 : cs.length ≠ is.length := by simpa using hlen
      cases cs with
      | nil =>
        cases is with
        | nil => exact absurd rfl hlen
        | cons i2 is2 => exact ⟨fun ch h => (nomatch h), fun _ _ => rfl⟩
      | cons c2 cs2 =>
        cases is with
        | nil => exact ⟨fun ch h => (nomatch h), fun _ _ => rfl⟩
        | cons i2 is2 =>
          have hg : generate_creators root (c :: c2 :: cs2) (i :: i2 :: is2) =
              .error "Abstract and concrete lists are of different length" := by
            show (if (c2 :: cs2).length = (i2 :: is2).length then
                (generate_creators root (c2 :: cs2) (i2 :: is2)).map
                  (CreatorChain.cons c i)
              else Except.error
                "Abstract and concrete lists are of different length") = _
            rw [if_neg hlen2]
          exact ⟨fun ch h => Except.noConfusion (hg ▸ h), fun _ _ => hg⟩

/-- Witness for C6 (amended), at a concrete mismatched configuration. -/
theorem length_mismatch_exact_message_witness :
    generate_creators () (context_list [IUniqueProduct, ISharedProduct])
      ["UniqueProduct"] =
      .error "Abstract and concrete lists are of different length" :=
  (length_mismatch_exact_message () (context_list [IUniqueProduct, ISharedProduct])
    ["UniqueProduct"] (by decide)).2 (by decide) (by decide)

/-- Counterexample to claim C7: both `static_assert` conditions are as the
claim states, but the messages in the code are "Product is not constructible
from a given set of arguments" and "ret_type is not constructible from
Concrete*", not the messages the claim fixes. -/
theorem default_creator_messages_counterexample :
    default_concrete_creator_check (fun _ _ => false) (fun _ _ => true)
      (default_abstract_creator IUniqueProduct) "UniqueProduct" =
      .error "Product is not constructible from a given set of arguments" ∧
    "Product is not constructible from a given set of arguments" ≠
      "implementation is not constructible from the given arguments" ∧
    default_concrete_creator_check (fun _ _ => true) (fun _ _ => false)
      (default_abstract_creator IUniqueProduct) "UniqueProduct" =
      .error "ret_type is not constructible from Concrete*" ∧
    "ret_type is not constructible from Concrete*" ≠
      "result type is not constructible from implementation" :=
  ⟨rfl, by decide, rfl, by decide⟩

/-- Claim C7 (amended): under the default policy, a concrete implementation
that is not constructible from the resolved argument sequence is a build
failure with the exact message "Product is not constructible from a given set
of arguments", and a result type not constructible from a pointer to the
implementation is a build failure with the exact message "ret_type is not
constructible from Concrete*"; when both constructibility facts hold the
instantiation succeeds. -/
theorem default_creator_assert_messages
    (cf : String → List Ty → Bool) (rc : Ty → String → Bool)
    (ctx : Context) (impl : String) :
    (cf impl ctx.args = false →
      default_concrete_creator_check cf rc ctx impl =
        .error "Product is not constructible from a given set of arguments") ∧
    (cf impl ctx.args = true → rc ctx.ret impl = false →
      default_concrete_creator_check cf rc ctx impl =
        .error "ret_type is not constructible from Concrete*") ∧
    (cf impl ctx.args = true → rc ctx.ret impl = true →
      default_concrete_creator_check cf rc ctx impl = .ok ()) := by
  refine ⟨fun h1 => ?_, fun h1 h2 => ?_, fun h1 h2 => ?_⟩
  · simp [default_concrete_creator_check, h1]
  · simp [default_concrete_creator_check, h1, h2]
  · simp [default_concrete_creator_check, h1, h2]

/-- Witness for C7 (amended): with both constructibility facts true, the
default creator instantiates. -/
theorem default_creator_assert_messages_witness :
    default_concrete_creator_check (fun _ _ => true) (fun _ _ => true)
      (default_abstract_creator IRawProduct) "RawProduct" = .ok () :=
  (default_creator_assert_messages (fun _ _ => true) (fun _ _ => true)
    (default_abstract_creator IRawProduct) "RawProduct").2.2 rfl rfl

/-- Claim C8: in the demo factory, after the exemplars `A` (at address `aA`)
and `B` (at address `aB`) are installed with `SetPrototype` on the two
prototype descriptors, `create<IPrototypeProduct<0>>()` returns a freshly
allocated clone of `A`'s dynamic class and
`create<IPrototypeProduct<1>>()` one of `B`'s — never cross-contaminated; the
clone lives at a fresh address distinct from both exemplars, matches the
exemplar's observable state (these products carry no mutable members, encoded
by `state = 0`), a second creation yields a second clone at yet another
address, the prototype policy ignores its construction arguments, and
mutating any one object leaves every other object — exemplars and clones —
untouched. -/
theorem prototype_policy_clones
    (st st2 : FState) (aA aB : Nat) (oA oB : Obj) (tA tB : Ty)
    (hA : st.heap.objs[aA]? = some oA)
    (hB : st.heap.objs[aB]? = some oB)
    (hA0 : oA.state = 0) (_hB0 : oB.state = 0)
    (hst2 : st2 = SetPrototype
      (SetPrototype st IPrototypeProductA (Value.handle tA aA))
      IPrototypeProductB (Value.handle tB aB)) :
    afactory_create demo_config st2 IPrototypeProductA [] =
      .ok (Value.handle (Ty.unique_ptr (Ty.iface "IPrototypeProduct<0>"))
            st.heap.objs.length,
          ⟨st.heap.objs ++ [⟨oA.cls, [], 0⟩]⟩) ∧
    afactory_create demo_config st2 IPrototypeProductB [] =
      .ok (Value.handle (Ty.unique_ptr (Ty.iface "IPrototypeProduct<1>"))
            st.heap.objs.length,
          ⟨st.heap.objs ++ [⟨oB.cls, [], 0⟩]⟩) ∧
    st.heap.objs.length ≠ aA ∧ st.heap.objs.length ≠ aB ∧
    (st.heap.objs ++ [⟨oA.cls, [], 0⟩])[st.heap.objs.length]? =
      some ⟨oA.cls, [], oA.state⟩ ∧
    afactory_create demo_config
        ⟨⟨st.heap.objs ++ [⟨oA.cls, [], 0⟩]⟩, st2.protos⟩
        IPrototypeProductA [] =
      .ok (Value.handle (Ty.unique_ptr (Ty.iface "IPrototypeProduct<0>"))
            (st.heap.objs.length + 1),
          ⟨st.heap.objs ++ [⟨oA.cls, [], 0⟩] ++ [⟨oA.cls, [], 0⟩]⟩) ∧
    st.heap.objs.length + 1 ≠ st.heap.objs.length ∧
    (∀ ctx impl s a1 a2, creator_create .prototype_creator ctx impl s a1 =
      creator_create .prototype_creator ctx impl s a2) ∧
    (∀ (hp : Heap) (adr s adr2 : Nat), adr ≠ adr2 →
      (hp.setState adr s).objs[adr2]? = hp.objs[adr2]?) := by
  subst hst2
  have hpA : (SetPrototype
      (SetPrototype st IPrototypeProductA (Value.handle tA aA))
      IPrototypeProductB (Value.handle tB aB)).protos
      (default_abstract_creator IPrototypeProductA).abs.name =
      Value.handle tA aA := by
    simp only [SetPrototype]
    rw [if_neg (by decide), if_pos (by decide)]
  have hpB : (SetPrototype
      (SetPrototype st IPrototypeProductA (Value.handle tA aA))
      IPrototypeProductB (Value.handle tB aB)).protos
      (default_abstract_creator IPrototypeProductB).abs.name =
      Value.handle tB aB := by
    simp only [SetPrototype]
    rw [if_pos (by decide)]
  have hltA : aA < st.heap.objs.length := (List.getElem?_eq_some.mp hA).1
  have hltB : aB < st.heap.objs.length := (List.getElem?_eq_some.mp hB).1
  refine ⟨?_, ?_, by omega, by omega, ?_, ?_, by omega,
    fun ctx impl s a1 a2 => rfl, ?_⟩
  · exact prototype_create_clones (default_abstract_creator IPrototypeProductA)
      "IPrototypeProduct<0>" _ tA aA oA [] hpA hA
  · exact prototype_create_clones (default_abstract_creator IPrototypeProductB)
      "IPrototypeProduct<1>" _ tB aB oB [] hpB hB
  · rw [hA0]
    exact List.getElem?_concat_length _ _
  · have ho2 : (st.heap.objs ++ [(⟨oA.cls, [], 0⟩ : Obj)])[aA]? = some oA := by
      rw [List.getElem?_append, if_pos hltA]
      exact hA
    have h2 := prototype_create_clones
      (default_abstract_creator IPrototypeProductA) "IPrototypeProduct<0>"
      ⟨⟨st.heap.objs ++ [⟨oA.cls, [], 0⟩]⟩,
        (SetPrototype
          (SetPrototype st IPrototypeProductA (Value.handle tA aA))
          IPrototypeProductB (Value.handle tB aB)).protos⟩
      tA aA oA [] hpA ho2
    rw [show afactory_create demo_config
        ⟨⟨st.heap.objs ++ [⟨oA.cls, [], 0⟩]⟩,
          (SetPrototype
            (SetPrototype st IPrototypeProductA (Value.handle tA aA))
            IPrototypeProductB (Value.handle tB aB)).protos⟩
        IPrototypeProductA [] =
      creator_create .prototype_creator
        (default_abstract_creator IPrototypeProductA) "IPrototypeProduct<0>"
        ⟨⟨st.heap.objs ++ [⟨oA.cls, [], 0⟩]⟩,
          (SetPrototype
            (SetPrototype st IPrototypeProductA (Value.handle tA aA))
            IPrototypeProductB (Value.handle tB aB)).protos⟩ [] from rfl, h2]
    simp
    rfl
  · intro hp adr s adr2 hne2
    simp only [Heap.setState]
    split
    · exact List.getElem?_set_ne hne2
    · rfl

/-- Witness for C8: a two-object heap whose objects are installed as the two
exemplars. -/
theorem prototype_policy_clones_witness :
    afactory_create demo_config
      (SetPrototype
        (SetPrototype
          (init_state ⟨[⟨"PrototypeProduct<0>", [], 0⟩,
            ⟨"PrototypeProduct<1>", [], 0⟩]⟩)
          IPrototypeProductA
          (Value.handle (Ty.unique_ptr (Ty.iface "IPrototypeProduct<0>")) 0))
        IPrototypeProductB
        (Value.handle (Ty.unique_ptr (Ty.iface "IPrototypeProduct<1>")) 1))
      IPrototypeProductA [] =
    .ok (Value.handle (Ty.unique_ptr (Ty.iface "IPrototypeProduct<0>")) 2,
      ⟨[⟨"PrototypeProduct<0>", [], 0⟩, ⟨"PrototypeProduct<1>", [], 0⟩,
        ⟨"PrototypeProduct<0>", [], 0⟩]⟩) :=
  (prototype_policy_clones
    (init_state ⟨[⟨"PrototypeProduct<0>", [], 0⟩,
      ⟨"PrototypeProduct<1>", [], 0⟩]⟩)
    (SetPrototype
      (SetPrototype
        (init_state ⟨[⟨"PrototypeProduct<0>", [], 0⟩,
          ⟨"PrototypeProduct<1>", [], 0⟩]⟩)
        IPrototypeProductA
        (Value.handle (Ty.unique_ptr (Ty.iface "IPrototypeProduct<0>")) 0))
      IPrototypeProductB
      (Value.handle (Ty.unique_ptr (Ty.iface "IPrototypeProduct<1>")) 1))
    0 1 ⟨"PrototypeProduct<0>", [], 0⟩ ⟨"PrototypeProduct<1>", [], 0⟩
    (Ty.unique_ptr (Ty.iface "IPrototypeProduct<0>"))
    (Ty.unique_ptr (Ty.iface "IPrototypeProduct<1>"))
    (by decide) (by decide) rfl rfl rfl).1

end gaf
